import Mathlib

/-!
Shallow embedding of the `melide` client-side scripts, covering the parts
of `src/js/validate.js`, `src/js/booking.js` and `src/js/lightbox.js` that
the specification's testable properties talk about.

Modelling conventions:
* JS strings are Lean `String`s; whitespace is modelled as the ASCII
  whitespace recognised by `Char.isWhitespace` (JS `\s` and `trim` also
  strip some rare Unicode spaces, which no claim exercises).
* DOM elements that may be absent are modelled as `Option`; a `none`
  lookup makes the corresponding code path a no-op, exactly as the
  source's `if (!el) return` guards do.
* The single-threaded browser event loop is modelled by explicit event
  lists consumed in order.
-/

namespace Melide

/-! ## validate.js -/

/-- Model of `String.prototype.trim` (used as `value.trim()` in the rules):
drop leading and trailing whitespace. -/
def jsTrim (s : String) : String :=
  String.mk (((s.toList.dropWhile Char.isWhitespace).reverse.dropWhile
      Char.isWhitespace).reverse)

/-- Helper for `String.prototype.split(sep)`: accumulates the current part
while scanning the character list. -/
def splitCharAux (sep : Char) (cur : List Char) : List Char → List (List Char)
  | [] => [cur.reverse]
  | c :: rest =>
      if c = sep then cur.reverse :: splitCharAux sep [] rest
      else splitCharAux sep (c :: cur) rest

/-- Model of `String.prototype.split(sep)` for a one-character separator
(`rule.split(':')` and the `'@'` split used to analyse the email regex). -/
def splitChar (sep : Char) (s : String) : List String :=
  (splitCharAux sep [] s.toList).map String.mk

/-- `const [ruleName, ...params] = rule.split(':')` — the rule name. -/
def ruleNameOf (rule : String) : String :=
  (splitChar ':' rule).headD ""

/-- `params[0]` of `rule.split(':')` — the first parameter, when present. -/
def ruleParamOf (rule : String) : Option String :=
  (splitChar ':' rule).get? 1

/-- Numeric value of a list of decimal digits. -/
def digitsVal (cs : List Char) : Nat :=
  cs.foldl (fun a c => a * 10 + (c.toNat - 48)) 0

/-- Model of JS `ToNumber` on the parameter strings that reach the
`minLength`/`maxLength` comparisons, restricted to the shapes that occur:
`""` converts to `0`, a decimal digit string to its value, anything else
to `NaN` (`none`, which makes every `>=`/`<=` comparison false). -/
def jsStringToNat (s : String) : Option Nat :=
  if s.toList = [] then some 0
  else if s.toList.all Char.isDigit then some (digitsVal s.toList)
  else none

/-- A JS value stored in `ruleConfig.message`: either a plain string or a
message-template function (as for `minLength`/`maxLength`). -/
inductive MsgVal
  | str (s : String)
  | fnVal (f : String → String)

/-- `typeof ruleConfig.message === 'function' ? ruleConfig.message(param) :
ruleConfig.message` — resolving a message against a parameter. -/
def msgWithParam : MsgVal → String → MsgVal
  | MsgVal.fnVal f, p => MsgVal.str (f p)
  | MsgVal.str s, _ => MsgVal.str s

/-- One entry of the `VALIDATION_RULES` registry: a predicate over the
field value and the optional rule parameter, plus the error message. -/
structure RuleConfig where
  test : String → Option String → Bool
  message : MsgVal

/-- `required.test`: `value && value.trim().length > 0`. -/
def requiredTest (v : String) : Bool :=
  (v != "") && decide (0 < (jsTrim v).length)

/-- The email regex `/^[^\s@]+@[^\s@]+\.[^\s@]+$/`: the string splits at a
unique `@` into a nonempty whitespace-free local part and a whitespace-free
domain that contains a `.` which is neither its first nor its last
character (all three regex pieces exclude whitespace and `@`, so exactly
one `@` may occur, and backtracking lets any interior dot split the
domain). -/
def emailRegexTest (v : String) : Bool :=
  match splitChar '@' v with
  | [a, b] =>
      (a != "") && a.toList.all (fun c => !c.isWhitespace) &&
      b.toList.all (fun c => !c.isWhitespace) &&
      ((b.toList.drop 1).dropLast.contains '.')
  | _ => false

/-- `email.test`: empty values pass (left to `required`), otherwise the
regex decides. -/
def emailTest (v : String) : Bool :=
  if v == "" then true else emailRegexTest v

/-- Character class `[\d\s\-\(\)]` of the phone regex. -/
def phoneCharOk (c : Char) : Bool :=
  c.isDigit || c.isWhitespace || c == '-' || c == '(' || c == ')'

/-- The phone regex `/^[\+]?[(]?[\d\s\-\(\)]{10,}$/` applied to the value
with all whitespace removed (`value.replace(/\s/g, '')`): an optional
leading `+` must be consumed by `[\+]?` since `+` is not in the body
class; `(` is in the body class, so the optional `[(]?` never rejects a
string the body alone would accept, leaving: after the optional `+`, at
least 10 characters, all from the class. -/
def phoneTest (v : String) : Bool :=
  if v == "" then true
  else
    let stripped := v.toList.filter (fun c => !c.isWhitespace)
    let body := match stripped with
      | '+' :: rest => rest
      | l => l
    decide (10 ≤ body.length) && body.all phoneCharOk

/-- `minLength.test`: empty values pass; otherwise compare the trimmed
length against the parameter (default `2`). -/
def minLengthTest (v : String) (p : Option String) : Bool :=
  if v == "" then true
  else
    match p with
    | none => decide (2 ≤ (jsTrim v).length)
    | some ps =>
        match jsStringToNat ps with
        | some n => decide (n ≤ (jsTrim v).length)
        | none => false

/-- `maxLength.test`: empty values pass; otherwise compare the trimmed
length against the parameter (default `1000`). -/
def maxLengthTest (v : String) (p : Option String) : Bool :=
  if v == "" then true
  else
    match p with
    | none => decide ((jsTrim v).length ≤ 1000)
    | some ps =>
        match jsStringToNat ps with
        | some n => decide ((jsTrim v).length ≤ n)
        | none => false

/-- `date.test`: empty values pass; otherwise `new Date(value) >= today`,
which depends on the wall clock and is abstracted as `dateOk`. -/
def dateTest (dateOk : String → Bool) (v : String) : Bool :=
  if v == "" then true else dateOk v

/-- The `VALIDATION_RULES` registry, as a lookup from rule name to rule
configuration; `dateOk` abstracts the wall-clock comparison of the `date`
rule. -/
def VALIDATION_RULES (dateOk : String → Bool) : String → Option RuleConfig :=
  fun name =>
    if name == "required" then
      some ⟨fun v _ => requiredTest v, MsgVal.str "This field is required"⟩
    else if name == "email" then
      some ⟨fun v _ => emailTest v, MsgVal.str "Please enter a valid email address"⟩
    else if name == "phone" then
      some ⟨fun v _ => phoneTest v, MsgVal.str "Please enter a valid phone number"⟩
    else if name == "minLength" then
      some ⟨fun v p => minLengthTest v p,
        MsgVal.fnVal (fun m => "Must be at least " ++ m ++ " characters long")⟩
    else if name == "maxLength" then
      some ⟨fun v p => maxLengthTest v p,
        MsgVal.fnVal (fun m => "Must be no more than " ++ m ++ " characters long")⟩
    else if name == "date" then
      some ⟨fun v _ => dateTest dateOk v,
        MsgVal.str "Please select a date from today onwards"⟩
    else none

/-- The rule loop of `validateField`: walk the rule list, skipping unknown
rule names, stopping at the first failing rule; returns the `isValid` flag
and the `errorMessage` variable (initially `''`). -/
def runRules (reg : String → Option RuleConfig) (value : String) :
    List String → Bool × MsgVal
  | [] => (true, MsgVal.str "")
  | rule :: rest =>
      match reg (ruleNameOf rule) with
      | none => runRules reg value rest
      | some rc =>
          match ruleParamOf rule with
          | some p =>
              if rc.test value (some p) then runRules reg value rest
              else (false, msgWithParam rc.message p)
          | none =>
              if rc.test value none then runRules reg value rest
              else (false, rc.message)

/-- Whether a single rule specification passes on a value: unknown rule
names are vacuously passing (they are skipped), otherwise the registry
predicate decides. -/
def rulePasses (reg : String → Option RuleConfig) (value : String)
    (rule : String) : Bool :=
  match reg (ruleNameOf rule) with
  | none => true
  | some rc => rc.test value (ruleParamOf rule)

/-- The error message a given rule specification produces when it fails. -/
def ruleErrorMessage (reg : String → Option RuleConfig) (rule : String) :
    MsgVal :=
  match reg (ruleNameOf rule) with
  | none => MsgVal.str ""
  | some rc =>
      match ruleParamOf rule with
      | some p => msgWithParam rc.message p
      | none => rc.message

/-- The message of the first failing rule of a list (the `errorMessage`
left by the loop), `''` when every rule passes. -/
def firstFailMsg (reg : String → Option RuleConfig) (value : String)
    (rules : List String) : MsgVal :=
  match rules.find? (fun r => !(rulePasses reg value r)) with
  | some r => ruleErrorMessage reg r
  | none => MsgVal.str ""

/-- A form field as the validator sees it: its `value`, and whether its
associated `<id>-error` element and enclosing `.form-group` exist. -/
structure FormField where
  value : String
  hasErrorElement : Bool
  hasFormGroup : Bool

/-- The error-display state a field owns: the error element's text and
`show` class, the field's `aria-invalid` and `error` class, and the form
group's `has-error` class. -/
structure FieldDisplay where
  errorText : MsgVal
  errorShown : Bool
  ariaInvalid : Bool
  errorClass : Bool
  groupHasError : Bool

/-- A field display with no error shown (the state of a pristine field,
and what `clearFieldError` produces when all elements are present). -/
def emptyDisplay : FieldDisplay :=
  { errorText := MsgVal.str ""
    errorShown := false
    ariaInvalid := false
    errorClass := false
    groupHasError := false }

/-- `clearFieldError(field)`: empty the error element (when present),
always reset `aria-invalid` and the `error` class, and clear the form
group's `has-error` (when present). -/
def clearFieldError (f : FormField) (d : FieldDisplay) : FieldDisplay :=
  { errorText := if f.hasErrorElement then MsgVal.str "" else d.errorText
    errorShown := if f.hasErrorElement then false else d.errorShown
    ariaInvalid := false
    errorClass := false
    groupHasError := if f.hasFormGroup then false else d.groupHasError }

/-- `showFieldError(field, message)`: write the message into the error
element (when present), mark the field invalid, and flag the form group
(when present). -/
def showFieldError (f : FormField) (m : MsgVal) (d : FieldDisplay) :
    FieldDisplay :=
  { errorText := if f.hasErrorElement then m else d.errorText
    errorShown := if f.hasErrorElement then true else d.errorShown
    ariaInvalid := true
    errorClass := true
    groupHasError := if f.hasFormGroup then true else d.groupHasError }

/-- `validateField(field, rules)`: clear the existing error, run the rules
in order, and show the first failure's message if any; returns the
`isValid` flag together with the field's new error-display state. -/
def validateField (reg : String → Option RuleConfig) (f : FormField)
    (rules : List String) (d : FieldDisplay) : Bool × FieldDisplay :=
  let d1 := clearFieldError f d
  match runRules reg f.value rules with
  | (true, _) => (true, d1)
  | (false, msg) => (false, showFieldError f msg d1)

/-- `validateForm(form, config)`: run `validateField` for every configured
field that exists in the document (keeping each field's new display
state), and conjoin the per-field verdicts without short-circuiting. -/
def validateForm (reg : String → Option RuleConfig)
    (dom : String → Option FormField) :
    List (String × List String) → (String → FieldDisplay) →
      Bool × (String → FieldDisplay)
  | [], ds => (true, ds)
  | p :: rest, ds =>
      match dom p.1 with
      | none => validateForm reg dom rest ds
      | some f =>
          let r := validateField reg f p.2 (ds p.1)
          let ds1 := fun id => if id = p.1 then r.2 else ds id
          let rrest := validateForm reg dom rest ds1
          (r.1 && rrest.1, rrest.2)

/-- The `'contact-form'` entry of `FORM_CONFIGS`. -/
def contactFormConfig : List (String × List String) :=
  [("contact-name", ["required", "minLength:2", "maxLength:100"]),
   ("contact-email", ["required", "email"]),
   ("contact-subject", ["maxLength:200"]),
   ("contact-message", ["required", "minLength:10", "maxLength:1000"])]

/-- The `'booking-form'` entry of `FORM_CONFIGS`. -/
def bookingFormConfig : List (String × List String) :=
  [("booking-name", ["required", "minLength:2", "maxLength:100"]),
   ("booking-email", ["required", "email"]),
   ("booking-phone", ["phone"]),
   ("booking-service", ["required"]),
   ("booking-date", ["required", "date"]),
   ("booking-time", ["required"]),
   ("booking-notes", ["maxLength:500"])]

/-! ## booking.js -/

/-- The `BOOKING_CONFIG` record. -/
structure BookingConfig where
  provider : String
  setmoreUrl : String
  internalRoute : String
  scriptTimeout : Nat
  retryAttempts : Nat

/-- The default `BOOKING_CONFIG` values. -/
def BOOKING_CONFIG : BookingConfig :=
  { provider := "setmore"
    setmoreUrl := "https://daixmarededa.setmore.com/book"
    internalRoute := "/pages/booking.html"
    scriptTimeout := 10000
    retryAttempts := 3 }

/-- What the environment does to one injected `<script>` element: its
`onload` fires, its `onerror` fires, or the `scriptTimeout` timer fires
first. -/
inductive AttemptOutcome
  | success
  | loadError
  | timeout
deriving DecidableEq

/-- How the promise returned by `loadSetmoreScript` settles. -/
inductive LoadResult
  | pending
  | resolved
  | rejectedTimeout
  | rejectedRetryExhausted
deriving DecidableEq

/-- `loadSetmoreScript()` driven by a list of per-attempt outcomes, with
the module-level `scriptLoadAttempts` counter threaded through; returns
the promise's settlement, the final counter, and the unconsumed outcomes.
Mirrors the source: `onload` resolves; the timeout callback removes the
script and rejects at once; `onerror` increments `scriptLoadAttempts` and
retries (after a 2s delay) while `scriptLoadAttempts <
BOOKING_CONFIG.retryAttempts`, else rejects. -/
def loadSetmoreScript (retryAttempts : Nat) :
    Nat → List AttemptOutcome → LoadResult × Nat × List AttemptOutcome
  | a, [] => (LoadResult.pending, a, [])
  | a, AttemptOutcome.success :: rest => (LoadResult.resolved, a, rest)
  | a, AttemptOutcome.timeout :: rest => (LoadResult.rejectedTimeout, a, rest)
  | a, AttemptOutcome.loadError :: rest =>
      if a + 1 < retryAttempts then loadSetmoreScript retryAttempts (a + 1) rest
      else (LoadResult.rejectedRetryExhausted, a + 1, rest)

/-- The DOM pieces `showSetmoreFallback` touches; `none` means the element
is absent, `some d` a present element whose relevant attribute
(`style.display` resp. `href`) currently holds `d`. -/
structure BookingDom where
  setmoreContainerDisplay : Option String
  fallbackContainerDisplay : Option String
  fallbackLinkHref : Option String

/-- `setupSetmoreFallbackLink()`: point the fallback link (when present)
at the configured Setmore URL. -/
def setupSetmoreFallbackLink (cfg : BookingConfig) (dom : BookingDom) :
    BookingDom :=
  match dom.fallbackLinkHref with
  | none => dom
  | some _ => { dom with fallbackLinkHref := some cfg.setmoreUrl }

/-- `showSetmoreFallback()`: hide the Setmore container, show the fallback
container, and set up the fallback link (each step guarded on element
presence, as in the source). -/
def showSetmoreFallback (cfg : BookingConfig) (dom : BookingDom) :
    BookingDom :=
  let dom1 :=
    match dom.setmoreContainerDisplay with
    | none => dom
    | some _ => { dom with setmoreContainerDisplay := some "none" }
  match dom1.fallbackContainerDisplay with
  | none => dom1
  | some _ =>
      setupSetmoreFallbackLink cfg
        { dom1 with fallbackContainerDisplay := some "block" }

/-! ## lightbox.js -/

/-- A focusable document element: the lightbox close button or any other
element, tagged by a number. -/
inductive DomElem
  | closeButton
  | other (n : Nat)
deriving DecidableEq

/-- One gallery item as the lightbox reads it: the full-resolution source
(`data-full` or the `img` `src`) and the `img` `alt` text. -/
structure GalleryItem where
  fullSrc : String
  alt : String
deriving DecidableEq

/-- The lightbox module state: the `isOpen`/`currentIndex`/
`focusedElementBeforeModal` variables, `document.activeElement`, the
lightbox element's visibility, the `lightboxImage` element's `src`, `alt`
and `opacity`, and the in-flight preload `Image` objects with the
`fullSrc`/`alt` their `onload` closures captured (in creation order). -/
structure LightboxState where
  isOpen : Bool
  currentIndex : Nat
  focusedElementBeforeModal : Option DomElem
  activeElement : Option DomElem
  ariaHidden : Bool
  displayStyle : String
  imageSrc : String
  imageAlt : String
  imageOpacity : String
  pendingLoads : List (String × String)
deriving DecidableEq

/-- `showLoadingState()`: dim the lightbox image. -/
def lbShowLoadingState (s : LightboxState) : LightboxState :=
  { s with imageOpacity := "0.5" }

/-- `hideLoadingState()`: restore the lightbox image's opacity. -/
def lbHideLoadingState (s : LightboxState) : LightboxState :=
  { s with imageOpacity := "1" }

/-- `loadCurrentImage()`: read the item at `currentIndex` (no-op when out
of range), show the loading state, and start preloading a `new Image()`
whose `onload`/`onerror` closures captured this item's `fullSrc`/`alt`.
The source's closures update `lightboxImage` without re-checking
`currentIndex`; the captured pair is recorded in `pendingLoads`. -/
def loadCurrentImage (gallery : List GalleryItem) (s : LightboxState) :
    LightboxState :=
  match gallery.get? s.currentIndex with
  | none => s
  | some item =>
      { lbShowLoadingState s with
          pendingLoads := s.pendingLoads ++ [(item.fullSrc, item.alt)] }

/-- The browser fires `onload` of the `i`-th in-flight preload: hide the
loading state and write the closure's captured `fullSrc`/`alt` into the
lightbox image — unconditionally, exactly as the source's `newImage.onload`
does. -/
def completeLoad (i : Nat) (s : LightboxState) : LightboxState :=
  match s.pendingLoads.get? i with
  | none => s
  | some (src, alt) =>
      { lbHideLoadingState s with
          imageSrc := src, imageAlt := alt,
          pendingLoads := s.pendingLoads.eraseIdx i }

/-- `openLightbox(index)`: reject an out-of-range index or an empty
gallery; otherwise store the currently focused element, set
`currentIndex`, show the modal, load the image and focus the close
button. -/
def openLightbox (gallery : List GalleryItem) (index : Nat)
    (s : LightboxState) : LightboxState :=
  if gallery.length = 0 ∨ gallery.length ≤ index then s
  else
    { (loadCurrentImage gallery
        { s with
          focusedElementBeforeModal := s.activeElement
          currentIndex := index
          isOpen := true
          ariaHidden := false
          displayStyle := "flex" }) with
      activeElement := some DomElem.closeButton }

/-- `closeLightbox()`: no-op when not open; otherwise hide the modal,
restore focus to `focusedElementBeforeModal` (when set) and clear it, and
blank the image to avoid a stale flash on reopen. The source performs
these as successive mutations; both branches below combine them into one
state write. -/
def closeLightbox (s : LightboxState) : LightboxState :=
  if s.isOpen = false then s
  else
    match s.focusedElementBeforeModal with
    | some e =>
        { s with
            isOpen := false, ariaHidden := true, displayStyle := "none",
            activeElement := some e, focusedElementBeforeModal := none,
            imageSrc := "", imageAlt := "" }
    | none =>
        { s with
            isOpen := false, ariaHidden := true, displayStyle := "none",
            imageSrc := "", imageAlt := "" }

/-- `showPreviousImage()`: no-op unless open with at least two items;
otherwise step `currentIndex` back, wrapping to the last item, and reload. -/
def showPreviousImage (gallery : List GalleryItem) (s : LightboxState) :
    LightboxState :=
  if s.isOpen = false ∨ gallery.length ≤ 1 then s
  else
    loadCurrentImage gallery { s with currentIndex :=
      if 0 < s.currentIndex then s.currentIndex - 1 else gallery.length - 1 }

/-- `showNextImage()`: no-op unless open with at least two items;
otherwise step `currentIndex` forward, wrapping to the first item, and
reload. -/
def showNextImage (gallery : List GalleryItem) (s : LightboxState) :
    LightboxState :=
  if s.isOpen = false ∨ gallery.length ≤ 1 then s
  else
    loadCurrentImage gallery { s with currentIndex :=
      if s.currentIndex < gallery.length - 1 then s.currentIndex + 1 else 0 }

/-- The `Home` branch of `handleKeydown`: jump to the first image. -/
def homeKey (gallery : List GalleryItem) (s : LightboxState) :
    LightboxState :=
  if s.isOpen = false then s
  else if 1 < gallery.length then
    loadCurrentImage gallery { s with currentIndex := 0 }
  else s

/-- The `End` branch of `handleKeydown`: jump to the last image. -/
def endKey (gallery : List GalleryItem) (s : LightboxState) :
    LightboxState :=
  if s.isOpen = false then s
  else if 1 < gallery.length then
    loadCurrentImage gallery { s with currentIndex := gallery.length - 1 }
  else s

/-- An event that can occur while the lightbox is open: a navigation
action or the completion of an in-flight image preload. -/
inductive LbEvent
  | prev
  | next
  | home
  | jumpEnd
  | loadDone (i : Nat)
deriving DecidableEq

/-- Dispatch one lightbox event. -/
def lbStep (gallery : List GalleryItem) (s : LightboxState) :
    LbEvent → LightboxState
  | LbEvent.prev => showPreviousImage gallery s
  | LbEvent.next => showNextImage gallery s
  | LbEvent.home => homeKey gallery s
  | LbEvent.jumpEnd => endKey gallery s
  | LbEvent.loadDone i => completeLoad i s

/-- Run a sequence of lightbox events in order. -/
def runEvents (gallery : List GalleryItem) (evs : List LbEvent)
    (s : LightboxState) : LightboxState :=
  evs.foldl (lbStep gallery) s

/-- A lightbox state as after `init()` on a page whose gallery has not
been opened yet: closed, index 0, no stored focus, some page element
focused, image blank. -/
def initialLightboxState : LightboxState :=
  { isOpen := false
    currentIndex := 0
    focusedElementBeforeModal := none
    activeElement := some (DomElem.other 0)
    ariaHidden := true
    displayStyle := "none"
    imageSrc := ""
    imageAlt := ""
    imageOpacity := "1"
    pendingLoads := [] }

/-- Gallery used by the stale-image-load scenario. -/
def staleGallery : List GalleryItem :=
  [{ fullSrc := "full0", alt := "alt0" }, { fullSrc := "full1", alt := "alt1" }]

/-! ## Theorems about booking.js -/

/-- Starting below the retry bound, a run of consecutive load errors that
exhausts the bound makes the loader reject, consuming exactly those
errors. -/
lemma loadSetmore_allErrors (rest : List AttemptOutcome) :
    ∀ (k a : Nat),
      loadSetmoreScript (a + k + 1) a
          (List.replicate (k + 1) AttemptOutcome.loadError ++ rest)
        = (LoadResult.rejectedRetryExhausted, a + k + 1, rest) := by
  intro k
  induction k with
  | zero =>
      intro a
      simp only [List.replicate, List.cons_append, List.nil_append,
        loadSetmoreScript]
      rw [if_neg (by omega)]
      simp
  | succ k ih =>
      intro a
      have e : a + 1 + k + 1 = a + (k + 1) + 1 := by omega
      have h := ih (a + 1)
      rw [e] at h
      simp only [List.replicate_succ, List.cons_append, loadSetmoreScript]
      rw [if_pos (by omega)]
      exact h

/-- The `scriptLoadAttempts` counter never decreases across a
`loadSetmoreScript` invocation, whatever the attempt outcomes. -/
lemma loadSetmore_counter_mono (r : Nat) :
    ∀ (outs : List AttemptOutcome) (a : Nat),
      a ≤ (loadSetmoreScript r a outs).2.1 := by
  intro outs
  induction outs with
  | nil => intro a; exact Nat.le_refl a
  | cons o rest ih =>
      intro a
      cases o with
      | success => exact Nat.le_refl a
      | timeout => exact Nat.le_refl a
      | loadError =>
          simp only [loadSetmoreScript]
          by_cases h : a + 1 < r
          · rw [if_pos h]
            exact Nat.le_trans (Nat.le_succ a) (ih (a + 1))
          · rw [if_neg h]
            exact Nat.le_succ a

/-- Claim C1: for a fresh page session (counter 0) with retry bound
`retryAttempts` (default 3: `BOOKING_CONFIG.retryAttempts = 3`), if every
script-load attempt fails with a load error then the promise rejects after
consuming exactly `retryAttempts` consecutive failures, and
`showSetmoreFallback` displays the fallback container and points the
fallback link at the configured `setmoreUrl`. -/
theorem claim_C1 (r : Nat) (rest : List AttemptOutcome) (dom : BookingDom)
    (hr : 1 ≤ r)
    (hc : dom.fallbackContainerDisplay.isSome = true)
    (hl : dom.fallbackLinkHref.isSome = true) :
    BOOKING_CONFIG.retryAttempts = 3
    ∧ loadSetmoreScript r 0 (List.replicate r AttemptOutcome.loadError ++ rest)
        = (LoadResult.rejectedRetryExhausted, r, rest)
    ∧ (showSetmoreFallback BOOKING_CONFIG dom).fallbackContainerDisplay
        = some "block"
    ∧ (showSetmoreFallback BOOKING_CONFIG dom).fallbackLinkHref
        = some BOOKING_CONFIG.setmoreUrl := by
  refine ⟨rfl, ?_, ?_, ?_⟩
  · have h := loadSetmore_allErrors rest (r - 1) 0
    have e1 : 0 + (r - 1) + 1 = r := by omega
    have e2 : r - 1 + 1 = r := by omega
    rw [e1, e2] at h
    exact h
  · rcases dom with ⟨sc, fcd, fl⟩
    cases fcd with
    | none => simp at hc
    | some fc =>
        cases sc <;> simp [showSetmoreFallback, setupSetmoreFallbackLink] <;>
          cases fl <;> simp
  · rcases dom with ⟨sc, fcd, fl⟩
    cases fcd with
    | none => simp at hc
    | some fc =>
        cases fl with
        | none => simp at hl
        | some l =>
            cases sc <;> simp [showSetmoreFallback, setupSetmoreFallbackLink]

/-- Witness for claim C1 at the default bound 3, an empty tail of
outcomes, and a page where both fallback elements exist. -/
theorem claim_C1_witness :
    BOOKING_CONFIG.retryAttempts = 3
    ∧ loadSetmoreScript 3 0
        (List.replicate 3 AttemptOutcome.loadError ++ [])
        = (LoadResult.rejectedRetryExhausted, 3, [])
    ∧ (showSetmoreFallback BOOKING_CONFIG
          (BookingDom.mk (some "flex") (some "none") (some ""))).fallbackContainerDisplay
        = some "block"
    ∧ (showSetmoreFallback BOOKING_CONFIG
          (BookingDom.mk (some "flex") (some "none") (some ""))).fallbackLinkHref
        = some BOOKING_CONFIG.setmoreUrl :=
  claim_C1 3 [] (BookingDom.mk (some "flex") (some "none") (some ""))
    (by omega) rfl rfl

/-- Claim C2 counterexample: with the default bound of 3 and a fresh
counter, a single timeout rejects the promise at once — the counter stays
0 and the two remaining attempt outcomes are never consumed, i.e. the
timeout neither counts toward the retry budget nor triggers a retry. -/
theorem claim_C2_counterexample :
    loadSetmoreScript BOOKING_CONFIG.retryAttempts 0
        [AttemptOutcome.timeout, AttemptOutcome.loadError,
         AttemptOutcome.loadError]
      = (LoadResult.rejectedTimeout, 0,
         [AttemptOutcome.loadError, AttemptOutcome.loadError]) := rfl

/-- Claim C2 (amended): when a script-load attempt exceeds the configured
`scriptTimeout` without loading, `loadSetmoreScript` rejects immediately
with a timeout error: the timeout does not increment the retry counter
and no retry is attempted, unlike the load-error path. -/
theorem claim_C2 (retryAttempts a : Nat) (rest : List AttemptOutcome) :
    loadSetmoreScript retryAttempts a (AttemptOutcome.timeout :: rest)
      = (LoadResult.rejectedTimeout, a, rest) := rfl

/-- Claim C10: `scriptLoadAttempts` is incremented on every script-load
error and never reset — not on success, not on a new invocation, and it
never decreases across any invocation; consequently once it has reached
`retryAttempts`, a failing invocation rejects on its first error with no
retries (consuming exactly that one error). -/
theorem claim_C10 (r a : Nat) :
    (∀ rest, loadSetmoreScript r a (AttemptOutcome.success :: rest)
        = (LoadResult.resolved, a, rest))
    ∧ (∀ outs, a ≤ (loadSetmoreScript r a outs).2.1)
    ∧ (∀ rest, a + 1 < r →
        loadSetmoreScript r a (AttemptOutcome.loadError :: rest)
          = loadSetmoreScript r (a + 1) rest)
    ∧ (∀ rest, r ≤ a →
        loadSetmoreScript r a (AttemptOutcome.loadError :: rest)
          = (LoadResult.rejectedRetryExhausted, a + 1, rest)) := by
  refine ⟨fun rest => rfl, fun outs => loadSetmore_counter_mono r outs a,
    fun rest h => ?_, fun rest h => ?_⟩
  · simp only [loadSetmoreScript]
    rw [if_pos h]
  · simp only [loadSetmoreScript]
    rw [if_neg (by omega)]

/-- Witness for claim C10: below the bound an error retries with the
counter bumped; at the bound (counter 3, bound 3) a failing invocation
rejects on its first error. -/
theorem claim_C10_witness :
    loadSetmoreScript 3 1 [AttemptOutcome.loadError]
        = loadSetmoreScript 3 2 []
    ∧ loadSetmoreScript 3 3 [AttemptOutcome.loadError]
        = (LoadResult.rejectedRetryExhausted, 4, []) :=
  ⟨(claim_C10 3 1).2.2.1 [] (by omega), (claim_C10 3 3).2.2.2 [] (by omega)⟩

/-! ## Theorems about lightbox.js -/

/-- `loadCurrentImage` only touches the loading opacity and the pending
preloads: index, open flag and the focus bookkeeping are unchanged. -/
lemma loadCurrentImage_fields (g : List GalleryItem) (t : LightboxState) :
    (loadCurrentImage g t).isOpen = t.isOpen
    ∧ (loadCurrentImage g t).currentIndex = t.currentIndex
    ∧ (loadCurrentImage g t).focusedElementBeforeModal
        = t.focusedElementBeforeModal
    ∧ (loadCurrentImage g t).activeElement = t.activeElement := by
  unfold loadCurrentImage
  cases hg : g.get? t.currentIndex with
  | none => exact ⟨rfl, rfl, rfl, rfl⟩
  | some item => exact ⟨rfl, rfl, rfl, rfl⟩

/-- `showPreviousImage` does not change the stored pre-open focus or the
open flag. -/
lemma showPreviousImage_focus (g : List GalleryItem) (s : LightboxState) :
    (showPreviousImage g s).focusedElementBeforeModal
        = s.focusedElementBeforeModal
    ∧ (showPreviousImage g s).isOpen = s.isOpen := by
  unfold showPreviousImage
  by_cases hc : s.isOpen = false ∨ g.length ≤ 1
  · rw [if_pos hc]; exact ⟨rfl, rfl⟩
  · rw [if_neg hc]
    exact ⟨(loadCurrentImage_fields g _).2.2.1,
      (loadCurrentImage_fields g _).1⟩

/-- `showNextImage` does not change the stored pre-open focus or the open
flag. -/
lemma showNextImage_focus (g : List GalleryItem) (s : LightboxState) :
    (showNextImage g s).focusedElementBeforeModal
        = s.focusedElementBeforeModal
    ∧ (showNextImage g s).isOpen = s.isOpen := by
  unfold showNextImage
  by_cases hc : s.isOpen = false ∨ g.length ≤ 1
  · rw [if_pos hc]; exact ⟨rfl, rfl⟩
  · rw [if_neg hc]
    exact ⟨(loadCurrentImage_fields g _).2.2.1,
      (loadCurrentImage_fields g _).1⟩

/-- The `Home` key handler does not change the stored pre-open focus or
the open flag. -/
lemma homeKey_focus (g : List GalleryItem) (s : LightboxState) :
    (homeKey g s).focusedElementBeforeModal = s.focusedElementBeforeModal
    ∧ (homeKey g s).isOpen = s.isOpen := by
  unfold homeKey
  by_cases hc : s.isOpen = false
  · rw [if_pos hc]; exact ⟨rfl, rfl⟩
  · rw [if_neg hc]
    by_cases hl : 1 < g.length
    · rw [if_pos hl]
      exact ⟨(loadCurrentImage_fields g _).2.2.1,
        (loadCurrentImage_fields g _).1⟩
    · rw [if_neg hl]; exact ⟨rfl, rfl⟩

/-- The `End` key handler does not change the stored pre-open focus or
the open flag. -/
lemma endKey_focus (g : List GalleryItem) (s : LightboxState) :
    (endKey g s).focusedElementBeforeModal = s.focusedElementBeforeModal
    ∧ (endKey g s).isOpen = s.isOpen := by
  unfold endKey
  by_cases hc : s.isOpen = false
  · rw [if_pos hc]; exact ⟨rfl, rfl⟩
  · rw [if_neg hc]
    by_cases hl : 1 < g.length
    · rw [if_pos hl]
      exact ⟨(loadCurrentImage_fields g _).2.2.1,
        (loadCurrentImage_fields g _).1⟩
    · rw [if_neg hl]; exact ⟨rfl, rfl⟩

/-- A preload completion does not change the stored pre-open focus or the
open flag. -/
lemma completeLoad_focus (i : Nat) (s : LightboxState) :
    (completeLoad i s).focusedElementBeforeModal
        = s.focusedElementBeforeModal
    ∧ (completeLoad i s).isOpen = s.isOpen := by
  unfold completeLoad
  cases hp : s.pendingLoads.get? i with
  | none => exact ⟨rfl, rfl⟩
  | some pr => cases pr; exact ⟨rfl, rfl⟩

/-- No lightbox event (navigation or preload completion) changes the
stored pre-open focus or closes the lightbox. -/
lemma lbStep_focus (g : List GalleryItem) (s : LightboxState) (e : LbEvent) :
    (lbStep g s e).focusedElementBeforeModal = s.focusedElementBeforeModal
    ∧ (lbStep g s e).isOpen = s.isOpen := by
  cases e with
  | prev => exact showPreviousImage_focus g s
  | next => exact showNextImage_focus g s
  | home => exact homeKey_focus g s
  | jumpEnd => exact endKey_focus g s
  | loadDone i => exact completeLoad_focus i s

/-- Running any sequence of lightbox events preserves the stored pre-open
focus and the open flag. -/
lemma runEvents_focus (g : List GalleryItem) :
    ∀ (evs : List LbEvent) (s : LightboxState),
      (runEvents g evs s).focusedElementBeforeModal
          = s.focusedElementBeforeModal
      ∧ (runEvents g evs s).isOpen = s.isOpen
  | [], s => ⟨rfl, rfl⟩
  | e :: evs, s => by
      have h1 := lbStep_focus g s e
      have h2 := runEvents_focus g evs (lbStep g s e)
      simp only [runEvents, List.foldl_cons] at h2 ⊢
      exact ⟨h1.1 ▸ h2.1, h1.2 ▸ h2.2⟩

/-- `closeLightbox` on an open lightbox with a stored pre-open focus
moves `document.activeElement` back to that element. -/
lemma closeLightbox_restores (t : LightboxState) (e : DomElem)
    (h1 : t.isOpen = true) (h2 : t.focusedElementBeforeModal = some e) :
    (closeLightbox t).activeElement = some e := by
  unfold closeLightbox
  rw [if_neg (by simp [h1])]
  simp [h2]

/-- Claim C6: whenever the lightbox is closed after having been opened,
focus is restored to the element that was focused immediately before
`openLightbox` was called, regardless of the navigation (and preload
completions) performed while open. -/
theorem claim_C6 (gallery : List GalleryItem) (s : LightboxState)
    (index : Nat) (e : DomElem) (evs : List LbEvent)
    (hfocus : s.activeElement = some e)
    (hidx : index < gallery.length) :
    (closeLightbox (runEvents gallery evs
        (openLightbox gallery index s))).activeElement = some e := by
  have hopen : (openLightbox gallery index s).focusedElementBeforeModal
        = some e
      ∧ (openLightbox gallery index s).isOpen = true := by
    unfold openLightbox
    rw [if_neg (by omega)]
    exact ⟨((loadCurrentImage_fields gallery _).2.2.1).trans hfocus,
      (loadCurrentImage_fields gallery _).1⟩
  have hrun := runEvents_focus gallery evs (openLightbox gallery index s)
  exact closeLightbox_restores _ e (hrun.2.trans hopen.2)
    (hrun.1.trans hopen.1)

/-- Witness for claim C6: a two-image gallery, a page element focused,
open at 0, navigate and let the first preload finish, then close. -/
theorem claim_C6_witness :
    (closeLightbox (runEvents staleGallery [LbEvent.next, LbEvent.loadDone 0]
        (openLightbox staleGallery 0 initialLightboxState))).activeElement
      = some (DomElem.other 0) :=
  claim_C6 staleGallery initialLightboxState 0 (DomElem.other 0)
    [LbEvent.next, LbEvent.loadDone 0] rfl (by decide)

/-- Claim C5: lightbox navigation is cyclic: with the lightbox open at the
last index, `showNextImage` sets the current index to 0, and open at index
0, `showPreviousImage` sets it to the last index. -/
theorem claim_C5 (gallery : List GalleryItem) (s : LightboxState)
    (h : s.isOpen = true) :
    (s.currentIndex = gallery.length - 1 →
        (showNextImage gallery s).currentIndex = 0)
    ∧ (s.currentIndex = 0 →
        (showPreviousImage gallery s).currentIndex = gallery.length - 1) := by
  constructor
  · intro hi
    unfold showNextImage
    by_cases hlen : gallery.length ≤ 1
    · rw [if_pos (Or.inr hlen)]
      omega
    · rw [if_neg (by simp [h]; omega)]
      rw [(loadCurrentImage_fields gallery _).2.1]
      show (if s.currentIndex < gallery.length - 1
          then s.currentIndex + 1 else 0) = 0
      rw [if_neg (by omega)]
  · intro hi
    unfold showPreviousImage
    by_cases hlen : gallery.length ≤ 1
    · rw [if_pos (Or.inr hlen)]
      omega
    · rw [if_neg (by simp [h]; omega)]
      rw [(loadCurrentImage_fields gallery _).2.1]
      show (if 0 < s.currentIndex
          then s.currentIndex - 1 else gallery.length - 1) = gallery.length - 1
      rw [if_neg (by omega)]

/-- Gallery used by the cyclic-navigation witness. -/
def c5gallery : List GalleryItem :=
  [{ fullSrc := "f0", alt := "" }, { fullSrc := "f1", alt := "" },
   { fullSrc := "f2", alt := "" }]

/-- An open lightbox state at a given index, for the cyclic-navigation
witness. -/
def c5openAt (i : Nat) : LightboxState :=
  { initialLightboxState with isOpen := true, currentIndex := i }

/-- Witness for claim C5 on a three-image gallery: next from index 2 wraps
to 0, previous from index 0 wraps to 2. -/
theorem claim_C5_witness :
    (showNextImage c5gallery (c5openAt 2)).currentIndex = 0
    ∧ (showPreviousImage c5gallery (c5openAt 0)).currentIndex
        = c5gallery.length - 1 :=
  ⟨(claim_C5 c5gallery (c5openAt 2) rfl).1 rfl,
   (claim_C5 c5gallery (c5openAt 0) rfl).2 rfl⟩

/-- Claim C7, evaluated on the racing trace the claim is about: open the
two-image gallery at index 0 (starting preload 0), navigate next (index
becomes 1, preload 1 starts), let preload 1 finish, then let the outdated
preload 0 finish. The outdated load's result is NOT discarded: the
lightbox image ends up showing `full0` although the current index is 1,
whose image is `full1`. -/
theorem claim_C7 :
    (runEvents staleGallery
        [LbEvent.next, LbEvent.loadDone 1, LbEvent.loadDone 0]
        (openLightbox staleGallery 0 initialLightboxState)).currentIndex = 1
    ∧ (staleGallery.get? 1).map GalleryItem.fullSrc = some "full1"
    ∧ (runEvents staleGallery
        [LbEvent.next, LbEvent.loadDone 1, LbEvent.loadDone 0]
        (openLightbox staleGallery 0 initialLightboxState)).imageSrc
        = "full0"
    ∧ "full0" ≠ "full1" :=
  ⟨rfl, rfl, rfl, by decide⟩

/-! ## Theorems about validate.js -/

/-- The rule loop's verdict is the conjunction of the individual rule
verdicts, and the `errorMessage` it leaves is the message of the first
failing rule (`''` when all pass). -/
lemma runRules_eq (reg : String → Option RuleConfig) (v : String) :
    ∀ rules, runRules reg v rules
      = (rules.all (rulePasses reg v), firstFailMsg reg v rules)
  | [] => rfl
  | rule :: rest => by
      have ih := runRules_eq reg v rest
      have hpass : rulePasses reg v rule
          = match reg (ruleNameOf rule) with
            | none => true
            | some rc => rc.test v (ruleParamOf rule) := rfl
      simp only [runRules, List.all_cons]
      cases hreg : reg (ruleNameOf rule) with
      | none =>
          have hp : rulePasses reg v rule = true := by
            rw [hpass, hreg]
          rw [ih]
          simp [firstFailMsg, hp]
      | some rc =>
          cases hp : ruleParamOf rule with
          | some p =>
              dsimp only
              have hp2 : rulePasses reg v rule = rc.test v (some p) := by
                rw [hpass, hreg, hp]
              by_cases ht : rc.test v (some p) = true
              · rw [if_pos ht, ih]
                simp [firstFailMsg, hp2, ht]
              · rw [if_neg ht]
                have ht2 : rulePasses reg v rule = false := by
                  rw [hp2]
                  exact Bool.eq_false_iff.mpr ht
                simp [firstFailMsg, ht2, ruleErrorMessage, hreg, hp]
          | none =>
              dsimp only
              have hp2 : rulePasses reg v rule = rc.test v none := by
                rw [hpass, hreg, hp]
              by_cases ht : rc.test v none = true
              · rw [if_pos ht, ih]
                simp [firstFailMsg, hp2, ht]
              · rw [if_neg ht]
                have ht2 : rulePasses reg v rule = false := by
                  rw [hp2]
                  exact Bool.eq_false_iff.mpr ht
                simp [firstFailMsg, ht2, ruleErrorMessage, hreg, hp]

/-- `validateField`'s verdict is the rule loop's verdict: the display
state passed in never influences it. -/
lemma validateField_fst (reg : String → Option RuleConfig) (f : FormField)
    (rules : List String) (d : FieldDisplay) :
    (validateField reg f rules d).1 = (runRules reg f.value rules).1 := by
  unfold validateField
  cases h : runRules reg f.value rules with
  | mk b m => cases b <;> simp

/-- When some rule fails, `validateField` leaves the field showing the
first failing rule's message. -/
lemma validateField_snd_fail (reg : String → Option RuleConfig)
    (f : FormField) (rules : List String) (d : FieldDisplay)
    (hfail : (runRules reg f.value rules).1 = false) :
    (validateField reg f rules d).2
      = showFieldError f (firstFailMsg reg f.value rules)
          (clearFieldError f d) := by
  unfold validateField
  cases h : runRules reg f.value rules with
  | mk b m =>
      cases b
      · have hm : m = firstFailMsg reg f.value rules := by
          have := runRules_eq reg f.value rules
          rw [h] at this
          exact (Prod.mk.injEq _ _ _ _).mp this.symm |>.2.symm
        simp [hm]
      · rw [h] at hfail
        simp at hfail

/-- Claim C3: `validateField` returns false iff at least one rule's
predicate fails on the field's value, and then the displayed message is
that of the first failing rule in list order; in particular
`['required','minLength:2']` on `"a"` fails showing "Must be at least 2
characters long", and on `""` fails showing "This field is required". -/
theorem claim_C3 (dateOk : String → Bool) (f : FormField)
    (rules : List String) (d : FieldDisplay) :
    ((validateField (VALIDATION_RULES dateOk) f rules d).1 = false ↔
        ∃ r ∈ rules, rulePasses (VALIDATION_RULES dateOk) f.value r = false)
    ∧ (∀ r, rules.find?
          (fun x => !(rulePasses (VALIDATION_RULES dateOk) f.value x))
            = some r →
        f.hasErrorElement = true →
        (validateField (VALIDATION_RULES dateOk) f rules d).2.errorText
            = ruleErrorMessage (VALIDATION_RULES dateOk) r
          ∧ (validateField (VALIDATION_RULES dateOk) f rules d).2.errorShown
              = true)
    ∧ ((validateField (VALIDATION_RULES dateOk) (FormField.mk "a" true true)
          ["required", "minLength:2"] emptyDisplay).1 = false
        ∧ (validateField (VALIDATION_RULES dateOk) (FormField.mk "a" true true)
            ["required", "minLength:2"] emptyDisplay).2.errorText
          = MsgVal.str "Must be at least 2 characters long")
    ∧ ((validateField (VALIDATION_RULES dateOk) (FormField.mk "" true true)
          ["required", "minLength:2"] emptyDisplay).1 = false
        ∧ (validateField (VALIDATION_RULES dateOk) (FormField.mk "" true true)
            ["required", "minLength:2"] emptyDisplay).2.errorText
          = MsgVal.str "This field is required") := by
  refine ⟨?_, ?_, ⟨rfl, rfl⟩, ⟨rfl, rfl⟩⟩
  · rw [validateField_fst, runRules_eq]
    show (rules.all (rulePasses (VALIDATION_RULES dateOk) f.value)
        = false) ↔ _
    constructor
    · intro hfalse
      by_contra hc
      push_neg at hc
      have hall : rules.all (rulePasses (VALIDATION_RULES dateOk) f.value)
          = true := by
        rw [List.all_eq_true]
        intro r hr
        have hnr := hc r hr
        cases hb : rulePasses (VALIDATION_RULES dateOk) f.value r
        · exact absurd hb hnr
        · rfl
      rw [hall] at hfalse
      exact Bool.noConfusion hfalse
    · rintro ⟨r, hr, hfalse⟩
      cases hall : rules.all (rulePasses (VALIDATION_RULES dateOk) f.value)
      · rfl
      · rw [List.all_eq_true] at hall
        have hrt := hall r hr
        rw [hfalse] at hrt
        exact Bool.noConfusion hrt
  · intro r hfind hel
    have hrmem := List.mem_of_find?_eq_some hfind
    have hrfail : rulePasses (VALIDATION_RULES dateOk) f.value r = false := by
      have := List.find?_some hfind
      simpa using this
    have hfail : (runRules (VALIDATION_RULES dateOk) f.value rules).1
        = false := by
      rw [runRules_eq]
      simp only [Bool.eq_false_iff]
      intro hall
      rw [List.all_eq_true] at hall
      have := hall r hrmem
      rw [hrfail] at this
      exact Bool.noConfusion this
    have hsnd := validateField_snd_fail (VALIDATION_RULES dateOk) f rules d
      hfail
    have hmsg : firstFailMsg (VALIDATION_RULES dateOk) f.value rules
        = ruleErrorMessage (VALIDATION_RULES dateOk) r := by
      unfold firstFailMsg
      rw [hfind]
    rw [hsnd, hmsg]
    constructor
    · simp [showFieldError, hel]
    · simp [showFieldError, hel]

/-- Witness for claim C3: on value `"a"` with rules
`['required','minLength:2']` the first failing rule is `minLength:2` and
its message is displayed. -/
theorem claim_C3_witness :
    (validateField (VALIDATION_RULES (fun _ => true))
        (FormField.mk "a" true true) ["required", "minLength:2"]
        emptyDisplay).2.errorText
      = ruleErrorMessage (VALIDATION_RULES (fun _ => true)) "minLength:2"
    ∧ (validateField (VALIDATION_RULES (fun _ => true))
        (FormField.mk "a" true true) ["required", "minLength:2"]
        emptyDisplay).2.errorShown = true :=
  (claim_C3 (fun _ => true) (FormField.mk "a" true true)
      ["required", "minLength:2"] emptyDisplay).2.1 "minLength:2" rfl rfl

/-- Skipping the unknown-rule entries of a list does not change what the
rule loop computes. -/
lemma runRules_filter (reg : String → Option RuleConfig) (v : String) :
    ∀ rules, runRules reg v
        (rules.filter (fun r => (reg (ruleNameOf r)).isSome))
      = runRules reg v rules
  | [] => rfl
  | rule :: rest => by
      have ih := runRules_filter reg v rest
      rw [List.filter_cons]
      cases hreg : reg (ruleNameOf rule) with
      | none =>
          rw [if_neg (by simp [hreg])]
          rw [ih]
          simp only [runRules, hreg]
      | some rc =>
          rw [if_pos (by simp [hreg])]
          show runRules reg v (rule :: rest.filter _) = _
          simp only [runRules, hreg]
          cases hp : ruleParamOf rule with
          | some p =>
              dsimp only
              by_cases ht : rc.test v (some p) = true
              · rw [if_pos ht, if_pos ht, ih]
              · rw [if_neg ht, if_neg ht]
          | none =>
              dsimp only
              by_cases ht : rc.test v none = true
              · rw [if_pos ht, if_pos ht, ih]
              · rw [if_neg ht, if_neg ht]

/-- Claim C8: `validateField` skips rule names not present in the
registry and continues with the remaining rules; an unknown name never
fails the field — the result (verdict and display state alike) equals that
of the same rule list with the unknown entries removed. -/
theorem claim_C8 (dateOk : String → Bool) (f : FormField)
    (rules : List String) (d : FieldDisplay) :
    validateField (VALIDATION_RULES dateOk) f
        (rules.filter
          (fun r => ((VALIDATION_RULES dateOk) (ruleNameOf r)).isSome)) d
      = validateField (VALIDATION_RULES dateOk) f rules d := by
  unfold validateField
  rw [runRules_filter]

/-- Clearing a field's error state twice is the same as clearing it
once. -/
lemma clearFieldError_clear (f : FormField) (d : FieldDisplay) :
    clearFieldError f (clearFieldError f d) = clearFieldError f d := by
  rcases f with ⟨v, he, hg⟩
  cases he <;> cases hg <;> simp [clearFieldError]

/-- Clearing a field's error state after showing an error is the same as
clearing the original state. -/
lemma clearFieldError_show (f : FormField) (m : MsgVal) (d : FieldDisplay) :
    clearFieldError f (showFieldError f m d) = clearFieldError f d := by
  rcases f with ⟨v, he, hg⟩
  cases he <;> cases hg <;> simp [clearFieldError, showFieldError]

/-- The clearing pass at the start of a second `validateField` run undoes
whatever display state the first run left. -/
lemma clearFieldError_validateField (reg : String → Option RuleConfig)
    (f : FormField) (rules : List String) (d : FieldDisplay) :
    clearFieldError f (validateField reg f rules d).2
      = clearFieldError f d := by
  unfold validateField
  cases h : runRules reg f.value rules with
  | mk b m =>
      cases b
      · dsimp only
        rw [clearFieldError_show, clearFieldError_clear]
      · dsimp only
        rw [clearFieldError_clear]

/-- `validateField` written as one conditional over the rule loop's
verdict. -/
lemma validateField_eq (reg : String → Option RuleConfig) (f : FormField)
    (rules : List String) (d : FieldDisplay) :
    validateField reg f rules d
      = if (runRules reg f.value rules).1 = true
        then (true, clearFieldError f d)
        else (false, showFieldError f (runRules reg f.value rules).2
            (clearFieldError f d)) := by
  unfold validateField
  cases h : runRules reg f.value rules with
  | mk b m => cases b <;> simp [h]

/-- Running `validateField` a second time on the state the first run left
reproduces the first run exactly (same verdict, same display state). -/
lemma validateField_idem (reg : String → Option RuleConfig) (f : FormField)
    (rules : List String) (d : FieldDisplay) :
    validateField reg f rules (validateField reg f rules d).2
      = validateField reg f rules d := by
  rw [validateField_eq reg f rules ((validateField reg f rules d).2),
      clearFieldError_validateField, validateField_eq reg f rules d]

/-- Claim C9: `validateField` is idempotent: running it twice on the same
field with the same value and rules yields the same boolean result and
leaves the error-display state exactly as after a single run. -/
theorem claim_C9 (dateOk : String → Bool) (f : FormField)
    (rules : List String) (d : FieldDisplay) :
    validateField (VALIDATION_RULES dateOk) f rules
        (validateField (VALIDATION_RULES dateOk) f rules d).2
      = validateField (VALIDATION_RULES dateOk) f rules d :=
  validateField_idem (VALIDATION_RULES dateOk) f rules d

/-- `validateForm`'s verdict is the conjunction over the configured
fields present in the document, independently of the display states. -/
lemma validateForm_fst (reg : String → Option RuleConfig)
    (dom : String → Option FormField) :
    ∀ (config : List (String × List String)) (ds : String → FieldDisplay),
      (validateForm reg dom config ds).1
        = config.all (fun p =>
            match dom p.1 with
            | none => true
            | some f => (runRules reg f.value p.2).1)
  | [], ds => rfl
  | p :: rest, ds => by
      simp only [validateForm, List.all_cons]
      cases hd : dom p.1 with
      | none =>
          dsimp only
          rw [validateForm_fst reg dom rest ds, Bool.true_and]
      | some f =>
          dsimp only
          rw [validateForm_fst reg dom rest _, validateField_fst]

/-- `validateForm` leaves the display state of a field identifier that is
not among the configured ones untouched. -/
lemma validateForm_untouched (reg : String → Option RuleConfig)
    (dom : String → Option FormField) :
    ∀ (config : List (String × List String)) (ds : String → FieldDisplay)
      (id : String), id ∉ config.map Prod.fst →
      (validateForm reg dom config ds).2 id = ds id
  | [], ds, id, h => rfl
  | p :: rest, ds, id, h => by
      rw [List.map_cons, List.mem_cons, not_or] at h
      cases hd : dom p.1 with
      | none =>
          simp only [validateForm, hd]
          exact validateForm_untouched reg dom rest ds id h.2
      | some f =>
          simp only [validateForm, hd]
          rw [validateForm_untouched reg dom rest _ id h.2]
          rw [if_neg h.1]

/-- With distinct configured field identifiers, `validateForm` gives every
present configured field exactly the display state its own
`validateField` run produces — no short-circuit skips a field. -/
lemma validateForm_display (reg : String → Option RuleConfig)
    (dom : String → Option FormField) :
    ∀ (config : List (String × List String)) (ds : String → FieldDisplay),
      (config.map Prod.fst).Nodup →
      ∀ p ∈ config, ∀ f, dom p.1 = some f →
        (validateForm reg dom config ds).2 p.1
          = (validateField reg f p.2 (ds p.1)).2
  | [], ds, hnd, p, hp, f, hf => absurd hp (List.not_mem_nil p)
  | q :: rest, ds, hnd, p, hp, f, hf => by
      rw [List.map_cons, List.nodup_cons] at hnd
      rcases List.mem_cons.mp hp with hpq | hpr
      · subst hpq
        simp only [validateForm, hf]
        rw [validateForm_untouched reg dom rest _ p.1 hnd.1]
        rw [if_pos rfl]
      · have hne : p.1 ≠ q.1 := by
          intro he
          exact hnd.1 (he ▸ List.mem_map_of_mem Prod.fst hpr)
        cases hdq : dom q.1 with
        | none =>
            simp only [validateForm, hdq]
            exact validateForm_display reg dom rest ds hnd.2 p hpr f hf
        | some fq =>
            simp only [validateForm, hdq]
            rw [validateForm_display reg dom rest _ hnd.2 p hpr f hf]
            rw [if_neg hne]

/-- Claim C4: for a form configuration with distinct field identifiers,
`validateForm` returns true iff every configured field present in the
document passes its rule list, and it updates the error display of every
such field (each ends in the state its own `validateField` run produces,
regardless of other fields' failures). -/
theorem claim_C4 (dateOk : String → Bool) (dom : String → Option FormField)
    (config : List (String × List String)) (ds : String → FieldDisplay)
    (hnd : (config.map Prod.fst).Nodup) :
    ((validateForm (VALIDATION_RULES dateOk) dom config ds).1 = true ↔
        ∀ p ∈ config, ∀ f, dom p.1 = some f →
          (validateField (VALIDATION_RULES dateOk) f p.2 (ds p.1)).1 = true)
    ∧ (∀ p ∈ config, ∀ f, dom p.1 = some f →
        (validateForm (VALIDATION_RULES dateOk) dom config ds).2 p.1
          = (validateField (VALIDATION_RULES dateOk) f p.2 (ds p.1)).2) := by
  constructor
  · rw [validateForm_fst, List.all_eq_true]
    constructor
    · intro h p hp f hf
      have hm := h p hp
      rw [hf] at hm
      rw [validateField_fst]
      exact hm
    · intro h p hp
      cases hdf : dom p.1 with
      | none => rfl
      | some f =>
          have hm := h p hp f hdf
          rw [validateField_fst] at hm
          exact hm
  · intro p hp f hf
    exact validateForm_display (VALIDATION_RULES dateOk) dom config ds hnd
      p hp f hf

/-- Date predicate used by the `validateForm` witness. -/
def c4dateOk : String → Bool := fun _ => true

/-- One-field document used by the `validateForm` witness. -/
def c4dom : String → Option FormField := fun id =>
  if id = "contact-name" then some (FormField.mk "Jo" true true) else none

/-- One-field form configuration used by the `validateForm` witness. -/
def c4config : List (String × List String) := [("contact-name", ["required"])]

/-- All-clear display map used by the `validateForm` witness. -/
def c4ds : String → FieldDisplay := fun _ => emptyDisplay

/-- Witness for claim C4 on a concrete one-field form. -/
theorem claim_C4_witness :
    ((validateForm (VALIDATION_RULES c4dateOk) c4dom c4config c4ds).1
        = true ↔
        ∀ p ∈ c4config, ∀ f, c4dom p.1 = some f →
          (validateField (VALIDATION_RULES c4dateOk) f p.2
            (c4ds p.1)).1 = true)
    ∧ (∀ p ∈ c4config, ∀ f, c4dom p.1 = some f →
        (validateForm (VALIDATION_RULES c4dateOk) c4dom c4config c4ds).2 p.1
          = (validateField (VALIDATION_RULES c4dateOk) f p.2
              (c4ds p.1)).2) :=
  claim_C4 c4dateOk c4dom c4config c4ds (by simp [c4config])

end Melide
